import Mathlib

/-!
Verification of the "Crawl & Correlate" core of the Responsive_Tracer
repository: the website crawler (`WebsiteCrawler` in the puppeteer module),
its per-page network interception, the API classifier (`isApiRequest`),
the timing estimator inside `analyzeApiCalls` (api-analyzer module), the
impact correlator (`ApiPerformanceCorrelator.analyzeApiImpact`) and the
alert engine (`generatePerformanceAlerts` / `formatAlertsForDisplay` in
performance-alerts).

JavaScript numbers are modelled as rationals (`ℚ`), machine integers as
`ℤ`/`ℕ`; possibly-absent (`undefined`) fields as `Option`; JavaScript
truthiness of a numeric field (`undefined` and `0` are falsy) as
`jsTruthy`.  Exceptions thrown by external collaborators (the browser)
are modelled as `Except` values supplied by an environment parameter.
-/

attribute [local semireducible] Rat.add Rat.sub Rat.mul Rat.inv Rat.ofScientific

namespace ResponsiveTracer

open scoped List

/-- JavaScript `Math.round`: `⌊x + 1/2⌋` (round half up, also for negatives). -/
def jsRound (q : ℚ) : ℤ := Rat.floor (q + 1/2)

theorem jsRound_eq (q : ℚ) : jsRound q = ⌊q + 1/2⌋ := by
  rw [jsRound, Rat.floor_def', ← Rat.floor_def]

/-- JavaScript truthiness of a possibly-absent numeric field:
`undefined` and `0` are falsy. -/
def jsTruthy (x : Option ℚ) : Bool :=
  match x with
  | none => false
  | some v => v != 0

/-- JavaScript `a || b` on possibly-absent numbers: the left value when
truthy, otherwise the right one. -/
def jsOrElse (x : Option ℚ) (dflt : ℚ) : ℚ :=
  match x with
  | none => dflt
  | some v => if v = 0 then dflt else v

/-- Decimal rendering of a natural number, as JavaScript string interpolation
produces it. -/
def natStr (n : ℕ) : String := toString n

/-- Decimal rendering of an integer, as JavaScript string interpolation
produces it. -/
def intStr (n : ℤ) : String := toString n

/-- Left-pad a digit string with zeros up to width `d`. -/
def padZeros (d : ℕ) (s : String) : String :=
  ⟨List.replicate (d - s.length) '0'⟩ ++ s

/-- JavaScript `x.toFixed(d)` for a nonnegative number: round half up at
`d` decimal places and print with exactly `d` decimals. -/
def jsToFixedNonneg (d : ℕ) (q : ℚ) : String :=
  let n := (Rat.floor (q * (10:ℚ)^d + 1/2)).toNat
  if d = 0 then natStr n
  else natStr (n / 10^d) ++ "." ++ padZeros d (natStr (n % 10^d))

/-- JavaScript `x.toFixed(d)` (sign handled as in the ECMAScript algorithm). -/
def jsToFixed (d : ℕ) (q : ℚ) : String :=
  if q < 0 then "-" ++ jsToFixedNonneg d (-q) else jsToFixedNonneg d q

example : jsToFixed 1 5 = "5.0" := by decide
example : jsToFixed 1 ((3:ℚ)/40 * 100) = "7.5" := by decide
example : jsToFixed 2 ((4500:ℚ)/1000) = "4.50" := by decide

/-! ## API Classifier (`WebsiteCrawler.isApiRequest`)

The source tests the URL against five case-insensitive regular
expressions: `/\/api\//i`, `/\/graphql/i`, `/\/rest\//i`, `/\/v\d+\//i`,
`/\.json$/i`.  Case-insensitive matching of these (all-lowercase,
ASCII-literal) patterns is modelled by case-folding the subject once and
running the literal scanners below. -/

/-- Case-fold a string to a character list (model of the regex `i` flag). -/
def lowerData (s : String) : List Char := s.data.map Char.toLower

/-- Scanner: the subject contains `pat` as a contiguous subsequence
(regex `pat` with no anchors). -/
def containsSeq (pat : List Char) : List Char → Bool
  | [] => pat.isEmpty
  | c :: cs => pat.isPrefixOf (c :: cs) || containsSeq pat cs

/-- Scanner: the subject ends with `pat` (regex `pat$`). -/
def endsWithSeq (pat l : List Char) : Bool :=
  pat.reverse.isPrefixOf l.reverse

/-- Scanner for the tail of `\d+\/`: zero or more digits then a slash. -/
def digitsThenSlash : List Char → Bool
  | [] => false
  | c :: cs => c = '/' || (c.isDigit && digitsThenSlash cs)

/-- Scanner for `\d+\/`: at least one digit then (after more digits) a slash. -/
def oneDigitThenSlash : List Char → Bool
  | [] => false
  | c :: cs => c.isDigit && digitsThenSlash cs

/-- Scanner for `\/v\d+\//` anchored at the head of the subject. -/
def versionAt : List Char → Bool
  | c1 :: c2 :: cs => c1 = '/' && c2 = 'v' && oneDigitThenSlash cs
  | _ => false

/-- Scanner for `/\/v\d+\//` anywhere in the subject. -/
def hasVersionSegment : List Char → Bool
  | [] => false
  | c :: cs => versionAt (c :: cs) || hasVersionSegment cs

/-- The five URL patterns of `isApiRequest`, in source order:
`/\/api\//i`, `/\/graphql/i`, `/\/rest\//i`, `/\/v\d+\//i`, `/\.json$/i`. -/
def apiPatterns : List (List Char → Bool) :=
  [containsSeq "/api/".data,
   containsSeq "/graphql".data,
   containsSeq "/rest/".data,
   hasVersionSegment,
   endsWithSeq ".json".data]

/-- `WebsiteCrawler.isApiRequest(url, resourceType)` from the crawler
module: `xhr`/`fetch` resource type (exact, case-sensitive string
comparison) or any URL pattern match. -/
def isApiRequest (url resourceType : String) : Bool :=
  let isXhrOrFetch := resourceType == "xhr" || resourceType == "fetch"
  let matchesPattern := apiPatterns.any fun p => p (lowerData url)
  isXhrOrFetch || matchesPattern

example : isApiRequest "https://x.com/v2/items" "other" = true := by decide
example : isApiRequest "https://x.com/v/items" "other" = false := by decide
example : isApiRequest "https://x.com/API/users" "other" = true := by decide

/-- Declarative reading of the five URL patterns: path segment `/api/`,
`/graphql`, `/rest/`, a versioned segment `/v<digits>/`, or a `.json`
suffix, all case-insensitive. -/
def matchesApiUrlShape (url : String) : Prop :=
  "/api/".data <:+: lowerData url ∨
  "/graphql".data <:+: lowerData url ∨
  "/rest/".data <:+: lowerData url ∨
  (∃ ds : List Char, ds ≠ [] ∧ (∀ c ∈ ds, c.isDigit = true) ∧
    ('/' :: 'v' :: (ds ++ ['/'])) <:+: lowerData url) ∨
  ".json".data <:+ lowerData url

/-- The §4.2 classification rule as a declarative predicate, with the
resource-type comparison as the code performs it (exact match against the
lowercase literals). -/
def classifySpec (url resourceType : String) : Prop :=
  resourceType = "xhr" ∨ resourceType = "fetch" ∨ matchesApiUrlShape url

theorem containsSeq_iff (pat : List Char) (l : List Char) :
    containsSeq pat l = true ↔ pat <:+: l := by
  induction l with
  | nil => simp [containsSeq]
  | cons c cs ih =>
      simp [containsSeq, List.infix_cons_iff, ih]

theorem endsWithSeq_iff (pat l : List Char) :
    endsWithSeq pat l = true ↔ pat <:+ l := by
  simp [endsWithSeq]

theorem digitsThenSlash_iff (cs : List Char) :
    digitsThenSlash cs = true ↔
      ∃ ds : List Char, (∀ c ∈ ds, c.isDigit = true) ∧ ds ++ ['/'] <+: cs := by
  induction cs with
  | nil =>
      simp only [digitsThenSlash, Bool.false_eq_true, false_iff, not_exists]
      rintro ds ⟨-, hpre⟩
      simpa using List.prefix_nil.mp hpre
  | cons c cs ih =>
      simp only [digitsThenSlash, Bool.or_eq_true, Bool.and_eq_true, decide_eq_true_eq, ih]
      constructor
      · rintro (rfl | ⟨hd, ds, hds, hpre⟩)
        · exact ⟨[], by simp, by simp⟩
        · refine ⟨c :: ds, by simpa [hd] using hds, ?_⟩
          rw [List.cons_append]
          exact List.cons_prefix_cons.mpr ⟨rfl, hpre⟩
      · rintro ⟨ds, hds, hpre⟩
        match ds with
        | [] =>
            left
            exact (show ('/' : Char) = c by simpa using hpre).symm
        | d :: ds =>
            right
            rw [List.cons_append] at hpre
            obtain ⟨heq, hpre⟩ := List.cons_prefix_cons.mp hpre
            exact ⟨heq ▸ hds d (by simp), ds, fun x hx => hds x (by simp [hx]), hpre⟩

theorem oneDigitThenSlash_iff (cs : List Char) :
    oneDigitThenSlash cs = true ↔
      ∃ ds : List Char, ds ≠ [] ∧ (∀ c ∈ ds, c.isDigit = true) ∧ ds ++ ['/'] <+: cs := by
  cases cs with
  | nil =>
      simp only [oneDigitThenSlash, Bool.false_eq_true, false_iff, not_exists]
      rintro ds ⟨hne, -, hpre⟩
      simpa [hne] using List.prefix_nil.mp hpre
  | cons c cs =>
      simp only [oneDigitThenSlash, Bool.and_eq_true, decide_eq_true_eq, digitsThenSlash_iff]
      constructor
      · rintro ⟨hd, ds, hds, hpre⟩
        refine ⟨c :: ds, by simp, by simpa [hd] using hds, ?_⟩
        rw [List.cons_append]
        exact List.cons_prefix_cons.mpr ⟨rfl, hpre⟩
      · rintro ⟨ds, hne, hds, hpre⟩
        match ds with
        | [] => exact absurd rfl hne
        | d :: ds =>
            rw [List.cons_append] at hpre
            obtain ⟨heq, hpre⟩ := List.cons_prefix_cons.mp hpre
            exact ⟨heq ▸ hds d (by simp), ds, fun x hx => hds x (by simp [hx]), hpre⟩

theorem versionAt_iff (l : List Char) :
    versionAt l = true ↔
      ∃ ds : List Char, ds ≠ [] ∧ (∀ c ∈ ds, c.isDigit = true) ∧
        ('/' :: 'v' :: (ds ++ ['/'])) <+: l := by
  match l with
  | [] =>
      simp only [versionAt, Bool.false_eq_true, false_iff, not_exists]
      rintro ds ⟨-, -, hpre⟩
      simpa using List.prefix_nil.mp hpre
  | [c] =>
      simp only [versionAt, Bool.false_eq_true, false_iff, not_exists]
      rintro ds ⟨-, -, hpre⟩
      have := hpre.length_le
      simp at this
  | c1 :: c2 :: cs =>
      simp only [versionAt, Bool.and_eq_true, decide_eq_true_eq, oneDigitThenSlash_iff]
      constructor
      · rintro ⟨⟨rfl, rfl⟩, ds, hne, hds, hpre⟩
        exact ⟨ds, hne, hds,
          List.cons_prefix_cons.mpr ⟨rfl, List.cons_prefix_cons.mpr ⟨rfl, hpre⟩⟩⟩
      · rintro ⟨ds, hne, hds, hpre⟩
        obtain ⟨h1, hpre⟩ := List.cons_prefix_cons.mp hpre
        obtain ⟨h2, hpre⟩ := List.cons_prefix_cons.mp hpre
        exact ⟨⟨h1.symm, h2.symm⟩, ds, hne, hds, hpre⟩

theorem hasVersionSegment_iff (l : List Char) :
    hasVersionSegment l = true ↔
      ∃ ds : List Char, ds ≠ [] ∧ (∀ c ∈ ds, c.isDigit = true) ∧
        ('/' :: 'v' :: (ds ++ ['/'])) <:+: l := by
  have scan : hasVersionSegment l = true ↔ ∃ s, s <:+ l ∧ versionAt s = true := by
    induction l with
    | nil => simp [hasVersionSegment, versionAt]
    | cons c cs ih =>
        simp only [hasVersionSegment, Bool.or_eq_true, ih]
        constructor
        · rintro (h | ⟨s, hs, hv⟩)
          · exact ⟨c :: cs, List.suffix_rfl, h⟩
          · exact ⟨s, hs.trans (List.suffix_cons c cs), hv⟩
        · rintro ⟨s, hs, hv⟩
          rcases List.suffix_cons_iff.mp hs with rfl | hs
          · exact Or.inl hv
          · exact Or.inr ⟨s, hs, hv⟩
  rw [scan]
  constructor
  · rintro ⟨s, hs, hv⟩
    obtain ⟨ds, hne, hds, hpre⟩ := (versionAt_iff s).mp hv
    exact ⟨ds, hne, hds, List.infix_iff_prefix_suffix.mpr ⟨s, hpre, hs⟩⟩
  · rintro ⟨ds, hne, hds, hinf⟩
    obtain ⟨s, hpre, hs⟩ := List.infix_iff_prefix_suffix.mp hinf
    exact ⟨s, hs, (versionAt_iff s).mpr ⟨ds, hne, hds, hpre⟩⟩

/-- C5 (amended core): `isApiRequest` returns `true` exactly when the
resource type is the exact string `xhr` or `fetch`, or the URL matches one
of the five case-insensitive URL shapes. -/
theorem isApiRequest_iff_classifySpec (url rt : String) :
    isApiRequest url rt = true ↔ classifySpec url rt := by
  simp only [isApiRequest, apiPatterns, classifySpec, matchesApiUrlShape,
    List.any_cons, List.any_nil, Bool.or_eq_true, Bool.or_false,
    Bool.false_eq_true, or_false,
    beq_iff_eq, containsSeq_iff, hasVersionSegment_iff, endsWithSeq_iff, or_assoc]

/-- C5, counterexample to the claim as stated: the resourceType comparison
in the source is the exact (case-sensitive) test `=== "xhr" || === "fetch"`,
so the upper-case resource type `"XHR"` — equal to `"xhr"` up to case — is
not classified as an API call, contradicting "all matching case-insensitive
(including the resourceType comparison)". -/
theorem isApiRequest_resourceType_case_sensitive :
    isApiRequest "https://x.com/static/logo.png" "XHR" = false ∧
    lowerData "XHR" = "xhr".data ∧
    isApiRequest "https://x.com/static/logo.png" "xhr" = true := by
  refine ⟨by decide, by decide, by decide⟩

/-- C5 (amended): `isApiRequest(url, resourceType)` returns true iff
`resourceType` is exactly `"xhr"` or `"fetch"` (case-sensitive), or the URL
matches one of: path segment `/api/`, `/graphql`, `/rest/`, a versioned
segment `/v<digits>/`, or a `.json` suffix, URL matching case-insensitive;
in particular `classify("https://x.com/api/users", "xhr") = true`,
`classify("https://x.com/static/logo.png", "other") = false`, and
`classify("https://x.com/data.json", "other") = true`. -/
theorem isApiRequest_spec :
    (∀ url rt, isApiRequest url rt = true ↔ classifySpec url rt) ∧
    isApiRequest "https://x.com/api/users" "xhr" = true ∧
    isApiRequest "https://x.com/static/logo.png" "other" = false ∧
    isApiRequest "https://x.com/data.json" "other" = true :=
  ⟨isApiRequest_iff_classifySpec, by decide, by decide, by decide⟩

/-! ## Timing Estimator (`analyzeApiCalls`, api-analyzer module)

The per-call `timeTaken` computation: a strict fallback chain of five
timestamp-difference rules, a size-based estimate with random jitter
(`Math.random()` modelled as a parameter `r ∈ [0,1)`), and the final
non-positive guard substituting `Math.round(20 + Math.random() * 80)`.
Every JavaScript `a && b` presence test is a truthiness test, modelled by
`jsTruthy`. -/

/-- A raw network-event record from the Lighthouse `network-requests`
audit, with the timing-related fields the estimator inspects. -/
structure RawCall where
  endTime : Option ℚ := none
  startTime : Option ℚ := none
  networkEndTime : Option ℚ := none
  networkRequestTime : Option ℚ := none
  responseReceivedTime : Option ℚ := none
  requestTime : Option ℚ := none
  finished : Option ℚ := none
  started : Option ℚ := none
  timingReceiveHeadersEnd : Option ℚ := none
  timingRequestTime : Option ℚ := none
  hasTiming : Bool := false
  transferSize : Option ℚ := none
  resourceSize : Option ℚ := none

/-- The fallback chain (Methods 1–6) computing `timeTaken` before the final
non-positive guard.  `r` is the value of the single `Math.random()` call
that Method 6 may consume. -/
def timeTakenChain (c : RawCall) (r : ℚ) : ℤ :=
  if jsTruthy c.endTime && jsTruthy c.startTime then
    jsRound (c.endTime.getD 0 - c.startTime.getD 0)
  else if jsTruthy c.networkEndTime && jsTruthy c.networkRequestTime then
    jsRound (c.networkEndTime.getD 0 - c.networkRequestTime.getD 0)
  else if jsTruthy c.responseReceivedTime && jsTruthy c.requestTime then
    jsRound ((c.responseReceivedTime.getD 0 - c.requestTime.getD 0) * 1000)
  else if jsTruthy c.finished && jsTruthy c.started then
    jsRound (c.finished.getD 0 - c.started.getD 0)
  else if c.hasTiming then
    if jsTruthy c.timingReceiveHeadersEnd && jsTruthy c.timingRequestTime then
      jsRound (c.timingReceiveHeadersEnd.getD 0 - c.timingRequestTime.getD 0)
    else 0
  else
    let size := jsOrElse c.transferSize (jsOrElse c.resourceSize 0)
    let baseTime : ℚ := 50
    let sizeTime : ℚ := max 10 (min 500 (size / 1000))
    jsRound (baseTime + sizeTime + r * 100)

/-- `timeTaken` for one raw call: the fallback chain followed by the
"ensure minimum realistic timing" guard, which substitutes
`Math.round(20 + Math.random() * 80)` when the chain yields `≤ 0`.
At most one `Math.random()` draw happens on any path, modelled by `r`. -/
def timeTakenFor (c : RawCall) (r : ℚ) : ℤ :=
  let t := timeTakenChain c r
  if t ≤ 0 then jsRound (20 + r * 80) else t

example : timeTakenFor { endTime := some 200, startTime := some 150 } 0 = 50 := by decide
example : timeTakenFor { endTime := some 100, startTime := some 200 } 0 = 20 := by decide
example : timeTakenFor { endTime := some 200, startTime := some 0 } 0 = 60 := by decide
example : timeTakenFor { transferSize := some 100000 } 0 = 150 := by decide

theorem le_jsRound {z : ℤ} {q : ℚ} (h : (z:ℚ) ≤ q) : z ≤ jsRound q := by
  rw [jsRound_eq]
  exact Int.le_floor.mpr (by linarith)

theorem jsRound_le {z : ℤ} {q : ℚ} (h : q + 1/2 < (z:ℚ) + 1) : jsRound q ≤ z := by
  have : jsRound q < z + 1 := by
    rw [jsRound_eq]
    exact Int.floor_lt.mpr (by push_cast; linarith)
  omega

/-- C3, counterexample to the claim as stated: with `endTime` and
`startTime` both present, the output is *not* always
`round(endTime − startTime)` — a non-positive difference is replaced by
the random `[20,100]` substitute (first record, difference `−100`,
output `20` at `r = 0`), and a present-but-zero `startTime` is falsy so
rule 1 is skipped entirely (second record, claimed output `200`, actual
size-based estimate `60` at `r = 0`). -/
theorem timing_rule1_counterexample :
    (timeTakenFor { endTime := some 100, startTime := some 200 } 0 = 20 ∧
      jsRound ((100:ℚ) - 200) = -100) ∧
    (timeTakenFor { endTime := some 200, startTime := some 0 } 0 = 60 ∧
      jsRound ((200:ℚ) - 0) = 200) :=
  ⟨⟨by decide, by decide⟩, ⟨by decide, by decide⟩⟩

/-- C3 (amended): the fallback rules apply in strict order; whenever
`endTime` and `startTime` are both present with non-zero values, rule 1
computes `round(endTime − startTime)` regardless of any other fields; the
output equals that value whenever it is positive, and otherwise the
post-condition substitutes `round(20 + random·80)`.  In particular
`endTime=200, startTime=150` yields exactly `50` (see witness). -/
theorem timing_rule1_spec (c : RawCall) (r : ℚ)
    (he : jsTruthy c.endTime = true) (hs : jsTruthy c.startTime = true) :
    (0 < jsRound (c.endTime.getD 0 - c.startTime.getD 0) →
      timeTakenFor c r = jsRound (c.endTime.getD 0 - c.startTime.getD 0)) ∧
    (jsRound (c.endTime.getD 0 - c.startTime.getD 0) ≤ 0 →
      timeTakenFor c r = jsRound (20 + r * 80)) := by
  have hcond : (jsTruthy c.endTime && jsTruthy c.startTime) = true := by
    rw [he, hs]; rfl
  rw [timeTakenFor, timeTakenChain, hcond]
  simp only [if_true]
  constructor
  · intro h
    rw [if_neg (by omega)]
  · intro h
    rw [if_pos h]

theorem timing_rule1_spec_witness :
    timeTakenFor { endTime := some 200, startTime := some 150 } 0 =
      jsRound ((200:ℚ) - 150) ∧
    jsRound ((200:ℚ) - 150) = 50 := by
  constructor
  · have h := (timing_rule1_spec { endTime := some 200, startTime := some 150 } 0
      (by decide) (by decide)).1 (by decide)
    simpa using h
  · decide

/-- C4: for every raw record (and random draw `r ∈ [0,1)`), the estimator
returns a strictly positive integer and never fails; when the fallback
chain computes a value `≤ 0` it substitutes `round(20 + r·80) ∈ [20,100]`;
and on a record with only `transferSize = 100000` the output lies in
`[60, 650]` (and is positive). -/
theorem timeTakenFor_spec :
    (∀ (c : RawCall) (r : ℚ), 0 ≤ r → 0 < timeTakenFor c r) ∧
    (∀ (c : RawCall) (r : ℚ), 0 ≤ r → r < 1 → timeTakenChain c r ≤ 0 →
      timeTakenFor c r = jsRound (20 + r * 80) ∧
      20 ≤ jsRound (20 + r * 80) ∧ jsRound (20 + r * 80) ≤ 100) ∧
    (∀ r : ℚ, 0 ≤ r → r < 1 →
      60 ≤ timeTakenFor { transferSize := some 100000 } r ∧
      timeTakenFor { transferSize := some 100000 } r ≤ 650) := by
  have hsub20 : ∀ r : ℚ, 0 ≤ r → 20 ≤ jsRound (20 + r * 80) := by
    intro r hr
    exact le_jsRound (by push_cast; nlinarith)
  refine ⟨?_, ?_, ?_⟩
  · intro c r hr
    rw [timeTakenFor]
    by_cases h : timeTakenChain c r ≤ 0
    · rw [if_pos h]
      have := hsub20 r hr
      omega
    · rw [if_neg h]
      omega
  · intro c r hr hr1 hle
    refine ⟨by rw [timeTakenFor, if_pos hle], hsub20 r hr, ?_⟩
    exact jsRound_le (by push_cast; nlinarith)
  · intro r hr hr1
    have hchain : timeTakenChain { transferSize := some 100000 } r =
        jsRound (150 + r * 100) := by
      rw [timeTakenChain]
      norm_num [jsTruthy, jsOrElse]
    have hlo : (150:ℤ) ≤ jsRound (150 + r * 100) :=
      le_jsRound (by push_cast; nlinarith)
    have hhi : jsRound (150 + r * 100) ≤ 250 :=
      jsRound_le (by push_cast; nlinarith)
    rw [timeTakenFor, hchain, if_neg (by omega)]
    omega

theorem timeTakenFor_spec_witness :
    0 < timeTakenFor { endTime := some 300, startTime := some 100 } 0 ∧
    (timeTakenFor { endTime := some 100, startTime := some 200 } 0 =
        jsRound (20 + (0:ℚ) * 80) ∧
      20 ≤ jsRound (20 + (0:ℚ) * 80) ∧ jsRound (20 + (0:ℚ) * 80) ≤ 100) ∧
    (60 ≤ timeTakenFor { transferSize := some 100000 } 0 ∧
      timeTakenFor { transferSize := some 100000 } 0 ≤ 650) :=
  ⟨timeTakenFor_spec.1 { endTime := some 300, startTime := some 100 } 0 le_rfl,
   timeTakenFor_spec.2.1 { endTime := some 100, startTime := some 200 } 0
     le_rfl (by decide) (by decide),
   timeTakenFor_spec.2.2 0 le_rfl (by decide)⟩

/-! ## Per-page network interception (`crawlWebsite`, `page.on("request")`
and `page.on("response")` handlers)

For each page the crawler keeps `apiCallsForPage`: every API-classified
request appends a provisional record; an API-classified response is matched
with `apiCallsForPage.find(call => call.url === url && call.method ===
method)` — the *first* record with the same `(url, method)`, with no check
whether it is already resolved — and that record is mutated in place. -/

/-- An `ApiCallRecord`: the provisional fields are set at request time,
the `Option` fields only when a response is matched.  (`responseSize` is
the `content-length` response header; the source stores the JS number `0`
when the header is absent, modelled as `none`.) -/
structure ApiCallRec where
  id : String
  url : String
  method : String
  headers : List (String × String)
  postData : Option String
  resourceType : String
  startTime : ℤ
  page : String
  depth : ℕ
  endTime : Option ℤ := none
  duration : Option ℤ := none
  status : Option ℤ := none
  statusText : Option String := none
  responseHeaders : Option (List (String × String)) := none
  responseSize : Option String := none
deriving DecidableEq

/-- A network event delivered to the page's interception handlers. -/
inductive NetEvent where
  | request (url method resourceType : String)
      (headers : List (String × String)) (postData : Option String) (time : ℤ)
  | response (url method resourceType : String) (status : ℤ)
      (statusText : String) (headers : List (String × String)) (time : ℤ)

/-- Interception state for one page: the `apiCallsForPage` array and the
supply counter for `generateUniqueId`. -/
structure InterceptState where
  records : List ApiCallRec
  nextId : ℕ

/-- Filling a matched record from a response event (the in-place mutation
of the `response` handler). -/
def resolveCall (c : ApiCallRec) (status : ℤ) (statusText : String)
    (hdrs : List (String × String)) (t : ℤ) : ApiCallRec :=
  { c with
    endTime := some t
    duration := some (t - c.startTime)
    status := some status
    statusText := some statusText
    responseHeaders := some hdrs
    responseSize := hdrs.lookup "content-length" }

/-- `Array.prototype.find` followed by in-place mutation: rewrite the
first element satisfying `p` with `f`, leave everything else untouched. -/
def resolveFirst (p : ApiCallRec → Bool) (f : ApiCallRec → ApiCallRec) :
    List ApiCallRec → List ApiCallRec
  | [] => []
  | c :: cs => if p c then f c :: cs else c :: resolveFirst p f cs

/-- One step of the two interception handlers. -/
def handleEvent (idGen : ℕ → String) (page : String) (depth : ℕ)
    (s : InterceptState) : NetEvent → InterceptState
  | .request url method rt hdrs pd t =>
      if isApiRequest url rt then
        { records := s.records ++
            [{ id := idGen s.nextId, url := url, method := method,
               headers := hdrs, postData := pd, resourceType := rt,
               startTime := t, page := page, depth := depth }],
          nextId := s.nextId + 1 }
      else s
  | .response url method rt status stext hdrs t =>
      if isApiRequest url rt then
        { s with records := (resolveFirst
            (fun call => call.url == url && call.method == method)
            (fun call => resolveCall call status stext hdrs t) s.records) }
      else s

/-- The interception session for one page over its event stream. -/
def runIntercept (idGen : ℕ → String) (page : String) (depth : ℕ)
    (events : List NetEvent) : InterceptState :=
  events.foldl (handleEvent idGen page depth) ⟨[], 0⟩

theorem resolveFirst_eq_of_no_match (p : ApiCallRec → Bool)
    (f : ApiCallRec → ApiCallRec) (l : List ApiCallRec)
    (h : ∀ c ∈ l, p c = false) : resolveFirst p f l = l := by
  induction l with
  | nil => rfl
  | cons c cs ih =>
      rw [resolveFirst, if_neg (by simp [h c (by simp)]),
        ih fun x hx => h x (by simp [hx])]

theorem resolveFirst_eq_set (p : ApiCallRec → Bool) (f : ApiCallRec → ApiCallRec)
    (l : List ApiCallRec) (i : ℕ) (c : ApiCallRec)
    (hget : l[i]? = some c) (hp : p c = true)
    (hbefore : ∀ j < i, ∀ cj, l[j]? = some cj → p cj = false) :
    resolveFirst p f l = l.set i (f c) := by
  induction l generalizing i with
  | nil => simp at hget
  | cons hd tl ih =>
      cases i with
      | zero =>
          simp only [List.getElem?_cons_zero, Option.some_inj] at hget
          subst hget
          rw [resolveFirst, if_pos hp, List.set_cons_zero]
      | succ i =>
          have hhd : p hd = false := hbefore 0 (Nat.succ_pos i) hd (by simp)
          rw [resolveFirst, if_neg (by simp [hhd]), List.set_cons_succ]
          rw [ih i (by simpa using hget)
            (fun j hj cj hcj => hbefore (j+1) (by omega) cj (by simpa using hcj))]

/-- C2, counterexample to the claim as stated: two in-flight provisional
records for the same `(url, method)`.  The first response does *not* go to
the most recent unresolved record — it resolves the oldest record
(index 0, status 200) — and the second response *re-resolves* that same
already-resolved record (overwriting its status with 500), leaving the
second record unresolved forever. -/
theorem intercept_counterexample :
    ((runIntercept natStr "https://x.com/p" 0
        [.request "https://x.com/api/items" "GET" "xhr" [] none 1,
         .request "https://x.com/api/items" "GET" "xhr" [] none 2,
         .response "https://x.com/api/items" "GET" "xhr" 200 "OK" [] 3]).records.map
      (fun c => c.status) = [some 200, none]) ∧
    ((runIntercept natStr "https://x.com/p" 0
        [.request "https://x.com/api/items" "GET" "xhr" [] none 1,
         .request "https://x.com/api/items" "GET" "xhr" [] none 2,
         .response "https://x.com/api/items" "GET" "xhr" 200 "OK" [] 3,
         .response "https://x.com/api/items" "GET" "xhr" 500 "ERR" [] 4]).records.map
      (fun c => c.status) = [some 500, none]) := by
  refine ⟨by decide, by decide⟩

/-- C2 (amended): an API-classified response event is matched against the
*first* (earliest-observed) record in `apiCallsForPage` with the same
`(url, method)` — whether or not that record is already resolved — and
that record alone is overwritten with `endTime`, `duration`, `status`,
`statusText` and `responseHeaders` from the response; all other records
are unchanged. -/
theorem response_resolves_first_match (idGen : ℕ → String) (page : String)
    (depth : ℕ) (s : InterceptState) (url method rt stext : String)
    (status t : ℤ) (hdrs : List (String × String)) (i : ℕ) (ci : ApiCallRec)
    (hapi : isApiRequest url rt = true)
    (hget : s.records[i]? = some ci)
    (hmatch : (ci.url == url && ci.method == method) = true)
    (hleast : ∀ j < i, ∀ cj, s.records[j]? = some cj →
      (cj.url == url && cj.method == method) = false) :
    (handleEvent idGen page depth s
        (.response url method rt status stext hdrs t)).records =
      s.records.set i (resolveCall ci status stext hdrs t) := by
  rw [handleEvent, if_pos hapi]
  exact resolveFirst_eq_set _ _ s.records i ci hget hmatch hleast

theorem response_resolves_first_match_witness :
    (handleEvent natStr "https://x.com/p" 0
        ⟨[{ id := "0", url := "https://x.com/api/items", method := "GET",
            headers := [], postData := none, resourceType := "xhr",
            startTime := 1, page := "https://x.com/p", depth := 0 },
          { id := "1", url := "https://x.com/api/items", method := "GET",
            headers := [], postData := none, resourceType := "xhr",
            startTime := 2, page := "https://x.com/p", depth := 0 }], 2⟩
        (.response "https://x.com/api/items" "GET" "xhr" 200 "OK" [] 3)).records =
      [resolveCall
        { id := "0", url := "https://x.com/api/items", method := "GET",
          headers := [], postData := none, resourceType := "xhr",
          startTime := 1, page := "https://x.com/p", depth := 0 } 200 "OK" [] 3,
       { id := "1", url := "https://x.com/api/items", method := "GET",
         headers := [], postData := none, resourceType := "xhr",
         startTime := 2, page := "https://x.com/p", depth := 0 }] := by
  rw [response_resolves_first_match natStr "https://x.com/p" 0 _
    "https://x.com/api/items" "GET" "xhr" "OK" 200 3 [] 0
    { id := "0", url := "https://x.com/api/items", method := "GET",
      headers := [], postData := none, resourceType := "xhr",
      startTime := 1, page := "https://x.com/p", depth := 0 }
    (by decide) (by simp) (by decide) (by omega)]
  rfl

/-! ## Crawl Scheduler (`WebsiteCrawler.crawlWebsite`)

The loop dequeues FIFO from `crawlQueue` while the queue is non-empty and
`visitedUrls.size < maxPages`; a dequeued entry already visited or deeper
than `maxDepth` is skipped; otherwise it is marked visited, the page is
navigated (modelled by a `web` function returning either page info with
extracted same-origin links and the captured per-page API calls, or a
navigation error), recorded in `pageData`, and its fresh links are
enqueued at `depth + 1`.  The loop is modelled with a fuel parameter; the
budget theorems hold for every fuel value, hence for the terminating run. -/

/-- A frontier entry `{url, depth, parentUrl}`. -/
structure FrontierEntry where
  url : String
  depth : ℕ
  parentUrl : Option String
deriving DecidableEq

/-- What `page.goto` + the in-page evaluation deliver for one URL:
the same-origin links, page metadata, and the API calls captured by the
page's interception session. -/
structure PageInfo where
  links : List String
  title : String
  description : String
  h1Count : ℕ
  imageCount : ℕ
  scriptCount : ℕ
  apiCalls : List ApiCallRec

/-- Outcome of navigating one page (success or a thrown navigation error). -/
inductive NavResult where
  | ok (info : PageInfo)
  | err (msg : String)

/-- A `pageData` entry: the success shape (`{...pageInfo, linkCount, depth,
parentUrl, apiCalls}`) or the failure shape (`{error, depth, parentUrl}`). -/
inductive PageRecord where
  | success (title description : String)
      (linkCount h1Count imageCount scriptCount apiCallCount : ℕ)
      (depth : ℕ) (parentUrl : Option String)
  | failure (error : String) (depth : ℕ) (parentUrl : Option String)
deriving DecidableEq

/-- The `depth` field common to both `pageData` record shapes. -/
def PageRecord.depth : PageRecord → ℕ
  | .success _ _ _ _ _ _ _ d _ => d
  | .failure _ d _ => d

/-- Mutable state of `crawlWebsite`: the visited and discovered URL sets
(insertion-ordered, as JS `Set` iterates), the `pageData` map
(insertion-ordered, keys never overwritten since a URL is processed at most
once), the accumulated `apiCalls`, and the frontier queue. -/
structure CrawlState where
  visitedUrls : List String
  discoveredUrls : List String
  pageData : List (String × PageRecord)
  apiCalls : List ApiCallRec
  queue : List FrontierEntry

/-- One step of the link-discovery loop: a link not yet visited and not
yet discovered is added to `discoveredUrls` and pushed on the queue with
`depth + 1` and the current page as parent. -/
def enqueueOne (cur : FrontierEntry) (st : CrawlState) (link : String) : CrawlState :=
  if st.visitedUrls.contains link || st.discoveredUrls.contains link then st
  else { st with
    discoveredUrls := st.discoveredUrls ++ [link],
    queue := st.queue ++ [⟨link, cur.depth + 1, some cur.url⟩] }

/-- The `pageInfo.links.forEach(...)` link-enqueueing loop. -/
def enqueueLinks (cur : FrontierEntry) (links : List String)
    (s : CrawlState) : CrawlState :=
  links.foldl (enqueueOne cur) s

/-- The body of one `while` iteration, after dequeuing `e` (with `rest`
the remaining queue). -/
def crawlStep (web : String → NavResult) (maxDepth : ℕ)
    (s : CrawlState) (e : FrontierEntry) (rest : List FrontierEntry) : CrawlState :=
  if s.visitedUrls.contains e.url ∨ e.depth > maxDepth then
    { s with queue := rest }
  else
    let s1 : CrawlState :=
      { s with visitedUrls := s.visitedUrls ++ [e.url], queue := rest }
    match web e.url with
    | .err msg =>
        { s1 with pageData :=
            s1.pageData ++ [(e.url, .failure msg e.depth e.parentUrl)] }
    | .ok info =>
        let s2 : CrawlState :=
          { s1 with
            pageData := s1.pageData ++
              [(e.url, .success info.title info.description info.links.length
                info.h1Count info.imageCount info.scriptCount
                info.apiCalls.length e.depth e.parentUrl)],
            apiCalls := s1.apiCalls ++ info.apiCalls }
        enqueueLinks e info.links s2

/-- The `while (crawlQueue.length > 0 && visitedUrls.size < maxPages)`
loop, with a fuel bound on the number of iterations. -/
def crawlLoop (web : String → NavResult) (maxPages maxDepth : ℕ) :
    ℕ → CrawlState → CrawlState
  | 0, s => s
  | fuel + 1, s =>
      match s.queue with
      | [] => s
      | e :: rest =>
          if s.visitedUrls.length < maxPages then
            crawlLoop web maxPages maxDepth fuel (crawlStep web maxDepth s e rest)
          else s

/-- The `CrawlResult` returned by `generateCrawlResults`.
`maxDepthReached` models `Math.max(...depths)`, whose value on an empty
spread is `-Infinity` (`⊥`). -/
structure CrawlResult where
  visitedUrls : List String
  pageData : List (String × PageRecord)
  totalPages : ℕ
  totalApiCalls : ℕ
  apiCalls : List ApiCallRec
  maxDepthReached : WithBot ℕ

/-- `WebsiteCrawler.generateCrawlResults`. -/
def generateCrawlResults (s : CrawlState) : CrawlResult :=
  { visitedUrls := s.visitedUrls
    pageData := s.pageData
    totalPages := s.visitedUrls.length
    totalApiCalls := s.apiCalls.length
    apiCalls := s.apiCalls
    maxDepthReached :=
      (s.pageData.map (fun p => ((p.2.depth : ℕ) : WithBot ℕ))).foldl max ⊥ }

/-- `WebsiteCrawler.crawlWebsite(baseUrl)`: seed the queue with
`{url: baseUrl, depth: 0, parentUrl: null}`, run the loop, and generate
the results. -/
def crawlWebsite (web : String → NavResult) (maxPages maxDepth : ℕ)
    (baseUrl : String) (fuel : ℕ) : CrawlResult :=
  generateCrawlResults
    (crawlLoop web maxPages maxDepth fuel ⟨[], [], [], [], [⟨baseUrl, 0, none⟩]⟩)

/-- The crawl-budget invariant: page budget respected, no duplicate visits,
and every visited URL has a `pageData` record whose recorded dequeue depth
is within the depth budget. -/
def CrawlInv (maxPages maxDepth : ℕ) (s : CrawlState) : Prop :=
  s.visitedUrls.length ≤ maxPages ∧ s.visitedUrls.Nodup ∧
  (∀ u ∈ s.visitedUrls, ∃ rec, (u, rec) ∈ s.pageData ∧ rec.depth ≤ maxDepth)

theorem enqueueOne_visitedUrls (cur : FrontierEntry) (st : CrawlState)
    (link : String) :
    (enqueueOne cur st link).visitedUrls = st.visitedUrls ∧
    (enqueueOne cur st link).pageData = st.pageData := by
  rw [enqueueOne]
  split <;> exact ⟨rfl, rfl⟩

theorem enqueueLinks_visitedUrls (cur : FrontierEntry) (links : List String)
    (s : CrawlState) :
    (enqueueLinks cur links s).visitedUrls = s.visitedUrls ∧
    (enqueueLinks cur links s).pageData = s.pageData := by
  induction links generalizing s with
  | nil => exact ⟨rfl, rfl⟩
  | cons l ls ih =>
      rw [enqueueLinks, List.foldl_cons]
      obtain ⟨h1, h2⟩ := ih (enqueueOne cur s l)
      obtain ⟨g1, g2⟩ := enqueueOne_visitedUrls cur s l
      rw [enqueueLinks] at h1 h2
      exact ⟨h1.trans g1, h2.trans g2⟩

theorem crawlStep_inv (web : String → NavResult) (maxPages maxDepth : ℕ)
    (s : CrawlState) (e : FrontierEntry) (rest : List FrontierEntry)
    (hinv : CrawlInv maxPages maxDepth s)
    (hlt : s.visitedUrls.length < maxPages) :
    CrawlInv maxPages maxDepth (crawlStep web maxDepth s e rest) := by
  obtain ⟨hlen, hnodup, hdepth⟩ := hinv
  rw [crawlStep]
  split
  · exact ⟨hlen, hnodup, hdepth⟩
  · rename_i hguard
    push_neg at hguard
    obtain ⟨hnotvis, hdle⟩ := hguard
    have hmem : e.url ∉ s.visitedUrls := by
      simpa using hnotvis
    have hvis : (s.visitedUrls ++ [e.url]).length ≤ maxPages := by
      simp; omega
    have hnodup2 : (s.visitedUrls ++ [e.url]).Nodup := by
      simp [List.nodup_append, hnodup, hmem]
    cases hw : web e.url with
    | err msg =>
        refine ⟨hvis, hnodup2, ?_⟩
        intro u hu
        rcases List.mem_append.mp hu with hu | hu
        · obtain ⟨rec, hrec, hrecd⟩ := hdepth u hu
          exact ⟨rec, by simp [hrec], hrecd⟩
        · rcases List.mem_singleton.mp hu with rfl
          exact ⟨.failure msg e.depth e.parentUrl, by simp, by simpa using hdle⟩
    | ok info =>
        obtain ⟨hv, hp⟩ := enqueueLinks_visitedUrls e info.links
          { s with
            visitedUrls := s.visitedUrls ++ [e.url], queue := rest,
            pageData := s.pageData ++
              [(e.url, .success info.title info.description info.links.length
                info.h1Count info.imageCount info.scriptCount
                info.apiCalls.length e.depth e.parentUrl)],
            apiCalls := s.apiCalls ++ info.apiCalls }
        refine ⟨by rw [hv]; exact hvis, by rw [hv]; exact hnodup2, ?_⟩
        intro u hu
        rw [hv] at hu
        rw [hp]
        rcases List.mem_append.mp hu with hu | hu
        · obtain ⟨rec, hrec, hrecd⟩ := hdepth u hu
          exact ⟨rec, by simp [hrec], hrecd⟩
        · rcases List.mem_singleton.mp hu with rfl
          exact ⟨.success info.title info.description info.links.length
            info.h1Count info.imageCount info.scriptCount
            info.apiCalls.length e.depth e.parentUrl, by simp,
            by simpa using hdle⟩

theorem crawlLoop_inv (web : String → NavResult) (maxPages maxDepth fuel : ℕ)
    (s : CrawlState) (hinv : CrawlInv maxPages maxDepth s) :
    CrawlInv maxPages maxDepth (crawlLoop web maxPages maxDepth fuel s) := by
  induction fuel generalizing s with
  | zero => exact hinv
  | succ fuel ih =>
      obtain ⟨v, d, p, a, q⟩ := s
      rw [crawlLoop]
      cases q with
      | nil => exact hinv
      | cons e rest =>
          show CrawlInv maxPages maxDepth
            (if v.length < maxPages then
              crawlLoop web maxPages maxDepth fuel
                (crawlStep web maxDepth ⟨v, d, p, a, e :: rest⟩ e rest)
            else ⟨v, d, p, a, e :: rest⟩)
          split
          · rename_i hlt
            exact ih _ (crawlStep_inv web maxPages maxDepth _ e rest hinv hlt)
          · exact hinv

/-- C1: for every crawl run (any navigation behavior, any budgets, any
fuel), the returned `CrawlResult` satisfies `totalPages = |visitedUrls| ≤
maxPages`, no URL appears twice in `visitedUrls`, and every visited URL
was dequeued (and recorded in `pageData`) at a depth `≤ maxDepth`. -/
theorem crawlWebsite_budgets (web : String → NavResult)
    (maxPages maxDepth : ℕ) (baseUrl : String) (fuel : ℕ) :
    (crawlWebsite web maxPages maxDepth baseUrl fuel).totalPages ≤ maxPages ∧
    (crawlWebsite web maxPages maxDepth baseUrl fuel).visitedUrls.length ≤ maxPages ∧
    (crawlWebsite web maxPages maxDepth baseUrl fuel).visitedUrls.Nodup ∧
    (∀ u ∈ (crawlWebsite web maxPages maxDepth baseUrl fuel).visitedUrls,
      ∃ rec, (u, rec) ∈ (crawlWebsite web maxPages maxDepth baseUrl fuel).pageData ∧
        rec.depth ≤ maxDepth) := by
  have h := crawlLoop_inv web maxPages maxDepth fuel
    ⟨[], [], [], [], [⟨baseUrl, 0, none⟩]⟩
    ⟨Nat.zero_le _, List.nodup_nil, by simp⟩
  obtain ⟨h1, h2, h3⟩ := h
  exact ⟨h1, h1, h2, h3⟩

/-- A two-page demo site used to instantiate the crawl theorems. -/
def demoWeb : String → NavResult := fun u =>
  if u = "https://site.test/" then
    .ok ⟨["https://site.test/a"], "Home", "", 1, 0, 1, []⟩
  else if u = "https://site.test/a" then
    .ok ⟨[], "A", "", 1, 0, 1, []⟩
  else .err "net::ERR_NAME_NOT_RESOLVED"

theorem crawlWebsite_budgets_witness :
    (crawlWebsite demoWeb 20 3 "https://site.test/" 10).totalPages ≤ 20 ∧
    (∃ rec, ("https://site.test/", rec) ∈
        (crawlWebsite demoWeb 20 3 "https://site.test/" 10).pageData ∧
      rec.depth ≤ 3) :=
  ⟨(crawlWebsite_budgets demoWeb 20 3 "https://site.test/" 10).1,
   (crawlWebsite_budgets demoWeb 20 3 "https://site.test/" 10).2.2.2
     "https://site.test/" (by decide)⟩

theorem crawlLoop_empty_queue (web : String → NavResult)
    (maxPages maxDepth fuel : ℕ) (s : CrawlState) (h : s.queue = []) :
    crawlLoop web maxPages maxDepth fuel s = s := by
  cases fuel with
  | zero => rfl
  | succ f => rw [crawlLoop, h]

/-- A site on which every navigation fails. -/
def failingWeb : String → NavResult := fun _ => .err "net::ERR_CONNECTION_REFUSED"

/-- C7, counterexample to the claim as stated: when navigation fails for
the (sole) seed page, the crawl returns normally, but the seed was already
added to `visitedUrls` *before* navigation, so `totalPages` is `1`, not
`0`; the seed gets a `pageData` record carrying the error. -/
theorem crawl_total_failure_counterexample :
    (crawlWebsite failingWeb 20 3 "https://site.test/" 10).totalPages = 1 ∧
    (crawlWebsite failingWeb 20 3 "https://site.test/" 10).pageData =
      [("https://site.test/", .failure "net::ERR_CONNECTION_REFUSED" 0 none)] := by
  refine ⟨by decide, by decide⟩

/-- C7 (amended): if navigation fails for every URL, `crawlWebsite` still
returns normally (no system-level error): with positive budgets and fuel
it returns `totalPages = 1` — the seed page counts as visited because it
is marked visited before navigation — with the seed's `PageRecord`
carrying the navigation error, and no API calls. -/
theorem crawl_total_failure (web : String → NavResult) (msg : String → String)
    (hweb : ∀ u, web u = .err (msg u)) (maxPages maxDepth fuel : ℕ)
    (baseUrl : String) (hp : 1 ≤ maxPages) (hf : 1 ≤ fuel) :
    (crawlWebsite web maxPages maxDepth baseUrl fuel).totalPages = 1 ∧
    (crawlWebsite web maxPages maxDepth baseUrl fuel).pageData =
      [(baseUrl, .failure (msg baseUrl) 0 none)] ∧
    (crawlWebsite web maxPages maxDepth baseUrl fuel).totalApiCalls = 0 := by
  obtain ⟨f, rfl⟩ : ∃ f, fuel = f + 1 := ⟨fuel - 1, by omega⟩
  have hstep : crawlStep web maxDepth ⟨[], [], [], [], [⟨baseUrl, 0, none⟩]⟩
      ⟨baseUrl, 0, none⟩ [] =
      ⟨[baseUrl], [], [(baseUrl, .failure (msg baseUrl) 0 none)], [], []⟩ := by
    rw [crawlStep, if_neg (by simp), hweb]
    rfl
  have h1 : crawlLoop web maxPages maxDepth (f + 1)
      ⟨[], [], [], [], [⟨baseUrl, 0, none⟩]⟩ =
      ⟨[baseUrl], [], [(baseUrl, .failure (msg baseUrl) 0 none)], [], []⟩ := by
    simp only [crawlLoop]
    rw [if_pos (by simpa using hp), hstep,
      crawlLoop_empty_queue web maxPages maxDepth f _ rfl]
  rw [crawlWebsite, h1]
  exact ⟨rfl, rfl, rfl⟩

theorem crawl_total_failure_witness :
    (crawlWebsite failingWeb 20 3 "https://site.test/" 10).totalPages = 1 ∧
    (crawlWebsite failingWeb 20 3 "https://site.test/" 10).totalApiCalls = 0 := by
  have h := crawl_total_failure failingWeb (fun _ => "net::ERR_CONNECTION_REFUSED")
    (fun _ => rfl) 20 3 10 "https://site.test/" (by omega) (by omega)
  exact ⟨h.1, h.2.2⟩

/-! ## Impact Correlator (`ApiPerformanceCorrelator.analyzeApiImpact`)

For each API call, sequentially: capture a before-snapshot, simulate the
call, wait, capture an after-snapshot, and push `{...apiCall,
frontendImpact}`; if any of those steps throws, push `{...apiCall,
frontendImpact: {error: <message>}}` instead.  The browser-dependent steps
for the `i`-th call are modelled by an environment
`env : ℕ → Except String (Snapshot × Snapshot)` giving either the two
snapshots or the thrown error message. -/

/-- `performance.memory`, when the browser exposes it. -/
structure MemoryMetrics where
  usedJSHeapSize : ℚ
  totalJSHeapSize : ℚ
  jsHeapSizeLimit : ℚ
deriving DecidableEq

/-- One `capturePerformanceMetrics` snapshot. -/
structure Snapshot where
  timestamp : ℚ
  fcp : ℚ
  cls : ℚ
  domUpdateTime : ℚ
  renderTime : ℚ
  memory : Option MemoryMetrics
  resourceCount : ℚ
deriving DecidableEq

/-- `calculateRenderingImpact`: `>100ms → high`, `>50ms → medium`, else `low`
on the render-time delta. -/
def calculateRenderingImpact (before after : Snapshot) : String :=
  let renderTimeDelta := after.renderTime - before.renderTime
  if renderTimeDelta > 100 then "high"
  else if renderTimeDelta > 50 then "medium"
  else "low"

/-- The record returned by `calculateMetricsImpact`. -/
structure ImpactMetrics where
  fcpDelta : ℚ
  clsDelta : ℚ
  resourceCountDelta : ℚ
  renderingImpact : String
deriving DecidableEq

/-- `calculateMetricsImpact`. -/
def calculateMetricsImpact (before after : Snapshot) : ImpactMetrics :=
  { fcpDelta := after.fcp - before.fcp
    clsDelta := after.cls - before.cls
    resourceCountDelta := after.resourceCount - before.resourceCount
    renderingImpact := calculateRenderingImpact before after }

/-- `afterMetrics.memory?.usedJSHeapSize - beforeMetrics.memory?.usedJSHeapSize
|| 0`: the difference when both sub-objects exist (a `0` difference is `0`
either way), `0` when either is missing (`NaN` is falsy). -/
def memoryDelta (before after : Snapshot) : ℚ :=
  match after.memory, before.memory with
  | some ma, some mb => ma.usedJSHeapSize - mb.usedJSHeapSize
  | _, _ => 0

/-- The `frontendImpact` value attached to a call: the spread
`{...impactMetrics, domUpdateTime, renderTime, layoutShiftDelta,
memoryDelta}` on success, or `{error: <message>}` on failure. -/
inductive FrontendImpact where
  | metrics (fcpDelta clsDelta resourceCountDelta : ℚ) (renderingImpact : String)
      (domUpdateTime renderTime layoutShiftDelta memoryDelta : ℚ)
  | failure (error : String)
deriving DecidableEq

/-- `{...apiCall, frontendImpact}`: all fields of the input record plus the
added `frontendImpact`. -/
structure EnhancedApiCall where
  base : ApiCallRec
  frontendImpact : FrontendImpact
deriving DecidableEq

/-- The loop body for one call, given the outcome of its browser steps. -/
def processApiCall (outcome : Except String (Snapshot × Snapshot))
    (call : ApiCallRec) : EnhancedApiCall :=
  match outcome with
  | .error e => ⟨call, .failure e⟩
  | .ok (b, a) =>
      let im := calculateMetricsImpact b a
      ⟨call, .metrics im.fcpDelta im.clsDelta im.resourceCountDelta
        im.renderingImpact (a.domUpdateTime - b.domUpdateTime)
        (a.renderTime - b.renderTime) (a.cls - b.cls) (memoryDelta b a)⟩

/-- The sequential `for (const apiCall of apiCalls)` loop, with `i` the
index of the current call in the original list. -/
def analyzeApiImpactAux (env : ℕ → Except String (Snapshot × Snapshot)) :
    ℕ → List ApiCallRec → List EnhancedApiCall
  | _, [] => []
  | i, c :: cs => processApiCall (env i) c :: analyzeApiImpactAux env (i + 1) cs

/-- `ApiPerformanceCorrelator.analyzeApiImpact(apiCalls, pageUrl)`. -/
def analyzeApiImpact (env : ℕ → Except String (Snapshot × Snapshot))
    (apiCalls : List ApiCallRec) : List EnhancedApiCall :=
  analyzeApiImpactAux env 0 apiCalls

theorem analyzeApiImpactAux_getElem
    (env : ℕ → Except String (Snapshot × Snapshot)) (k : ℕ)
    (cs : List ApiCallRec) (j : ℕ) :
    (analyzeApiImpactAux env k cs)[j]? =
      (cs[j]?).map (processApiCall (env (k + j))) := by
  induction cs generalizing k j with
  | nil => simp [analyzeApiImpactAux]
  | cons c cs ih =>
      cases j with
      | zero => simp [analyzeApiImpactAux]
      | succ j =>
          have harith : k + 1 + j = k + (j + 1) := by omega
          simp [analyzeApiImpactAux, ih (k + 1) j, harith]

/-- C10: the correlator returns a list of exactly the same length and
order, each output record being the corresponding input record with every
field unchanged plus the added `frontendImpact`. -/
theorem analyzeApiImpact_frame (env : ℕ → Except String (Snapshot × Snapshot))
    (apiCalls : List ApiCallRec) :
    (analyzeApiImpact env apiCalls).length = apiCalls.length ∧
    (analyzeApiImpact env apiCalls).map (fun c => c.base) = apiCalls := by
  have hmap : ∀ (k : ℕ) (cs : List ApiCallRec),
      (analyzeApiImpactAux env k cs).map (fun c => c.base) = cs := by
    intro k cs
    induction cs generalizing k with
    | nil => rfl
    | cons c cs ih =>
        rw [analyzeApiImpactAux, List.map_cons, ih (k + 1)]
        congr 1
        cases h : env k with
        | ok ba => cases ba with | mk b a => rfl
        | error e => rfl
  refine ⟨?_, hmap 0 apiCalls⟩
  have := congrArg List.length (hmap 0 apiCalls)
  simpa [analyzeApiImpact] using this

/-- C9: if the snapshot/simulation steps throw for the `i`-th call, that
call is still present at position `i` of the output, with
`frontendImpact = {error: <message>}` — and the outcome for any other call
does not depend on what happened at position `i`. -/
theorem analyzeApiImpact_error_isolation
    (env env' : ℕ → Except String (Snapshot × Snapshot))
    (apiCalls : List ApiCallRec) (i : ℕ) (e : String)
    (herr : env i = .error e)
    (hsame : ∀ j, j ≠ i → env' j = env j) :
    (analyzeApiImpact env apiCalls)[i]? =
      (apiCalls[i]?).map (fun c => ⟨c, FrontendImpact.failure e⟩) ∧
    ∀ j, j ≠ i →
      (analyzeApiImpact env' apiCalls)[j]? = (analyzeApiImpact env apiCalls)[j]? := by
  constructor
  · rw [analyzeApiImpact, analyzeApiImpactAux_getElem env 0 apiCalls i,
      Nat.zero_add, herr]
    rfl
  · intro j hj
    rw [analyzeApiImpact, analyzeApiImpact,
      analyzeApiImpactAux_getElem env 0 apiCalls j,
      analyzeApiImpactAux_getElem env' 0 apiCalls j]
    simp only [Nat.zero_add]
    rw [hsame j hj]

/-- Demo data instantiating the correlator theorems. -/
def demoCall1 : ApiCallRec :=
  { id := "a", url := "https://x.com/api/one", method := "GET", headers := [],
    postData := none, resourceType := "xhr", startTime := 1,
    page := "https://x.com/p", depth := 0 }

/-- Second demo call. -/
def demoCall2 : ApiCallRec :=
  { id := "b", url := "https://x.com/api/two", method := "POST", headers := [],
    postData := none, resourceType := "fetch", startTime := 2,
    page := "https://x.com/p", depth := 0 }

/-- A demo environment: the second call's simulation throws. -/
def demoEnv : ℕ → Except String (Snapshot × Snapshot) := fun n =>
  if n = 1 then .error "Execution context was destroyed"
  else .ok (⟨1000, 100, 0, 200, 300, none, 10⟩, ⟨1500, 100, 0, 200, 460, none, 12⟩)

theorem analyzeApiImpact_error_isolation_witness :
    (analyzeApiImpact demoEnv [demoCall1, demoCall2])[1]? =
      ([demoCall1, demoCall2][1]?).map
        (fun c => ⟨c, FrontendImpact.failure "Execution context was destroyed"⟩) :=
  (analyzeApiImpact_error_isolation demoEnv demoEnv [demoCall1, demoCall2] 1
    "Execution context was destroyed" rfl (fun _ _ => rfl)).1

/-! ## Metrics Aggregator & Alert Engine (`generatePerformanceAlerts`,
`formatAlertsForDisplay`)

Each metric is checked in its own `if (critical) ... else if (warning)`
block that pushes at most one alert; the blocks run in source order (FCP,
LCP, CLS, TTI, TBT, SI, performance score, accessibility score, then the
three API aggregate checks).  Threshold strings that the source computes
from numeric constants (`${3000/1000}s`, `formatBytes(5*1024*1024)`, …)
are written as the string literals they evaluate to. -/

/-- `alert.type`. -/
inductive AlertType where
  | warning
  | critical
deriving DecidableEq

/-- An alert record. -/
structure Alert where
  type : AlertType
  category : String
  metric : String
  value : String
  threshold : String
  message : String
  recommendation : String
  details : List String := []
deriving DecidableEq

/-- The `details` sub-object of the Lighthouse metrics record: raw numeric
values of the six timing metrics. -/
structure LhDetails where
  fcpRaw : Option ℚ := none
  lcpRaw : Option ℚ := none
  clsRaw : Option ℚ := none
  tbtRaw : Option ℚ := none
  ttiRaw : Option ℚ := none
  siRaw : Option ℚ := none
deriving DecidableEq

/-- The fields of `lighthouseResults` read by the alert engine. -/
structure LighthouseResults where
  performance : Option ℚ := none
  accessibility : Option ℚ := none
  details : Option LhDetails := none
deriving DecidableEq

/-- A formatted API call from `analyzeApiCalls`, with the fields the alert
engine reads.  `status` is `statusCode || "Unknown"` in the source; the
string `"Unknown"` (never `≥ 400`) is modelled as `none`.
`rawTransferSize` is `rawData?.transferSize`. -/
structure FormattedApiCall where
  endpoint : String
  method : String
  status : Option ℤ := none
  timeTaken : ℤ := 0
  payloadSize : String := "0B"
  rawTransferSize : Option ℚ := none
deriving DecidableEq

/-- The `apiResults` input (`{apiCalls, analysis}`); the engine reads only
`apiCalls`. -/
structure ApiResults where
  apiCalls : List FormattedApiCall
deriving DecidableEq

/-- `${call.status}` in a template literal: the number, or `"Unknown"`. -/
def statusStr (s : Option ℤ) : String :=
  match s with
  | some v => intStr v
  | none => "Unknown"

/-- `call.status >= 400` (false for `"Unknown"`/absent status). -/
def statusGe400 (c : FormattedApiCall) : Bool :=
  match c.status with
  | some s => decide (400 ≤ s)
  | none => false

/-- The FCP block (warning ≥ 2000ms, critical ≥ 3000ms). -/
def fcpAlerts (d : LhDetails) : List Alert :=
  if jsTruthy d.fcpRaw then
    let v := d.fcpRaw.getD 0
    if v ≥ 3000 then
      [{ type := .critical, category := "Core Web Vitals",
         metric := "First Contentful Paint (FCP)",
         value := jsToFixed 2 (v / 1000) ++ "s", threshold := "3s",
         message := "First Contentful Paint is critically slow",
         recommendation := "Optimize critical rendering path, reduce server response time, and minimize render-blocking resources." }]
    else if v ≥ 2000 then
      [{ type := .warning, category := "Core Web Vitals",
         metric := "First Contentful Paint (FCP)",
         value := jsToFixed 2 (v / 1000) ++ "s", threshold := "2s",
         message := "First Contentful Paint is slow",
         recommendation := "Consider optimizing server response time and reducing render-blocking resources." }]
    else []
  else []

/-- The LCP block (warning ≥ 2500ms, critical ≥ 4000ms). -/
def lcpAlerts (d : LhDetails) : List Alert :=
  if jsTruthy d.lcpRaw then
    let v := d.lcpRaw.getD 0
    if v ≥ 4000 then
      [{ type := .critical, category := "Core Web Vitals",
         metric := "Largest Contentful Paint (LCP)",
         value := jsToFixed 2 (v / 1000) ++ "s", threshold := "4s",
         message := "Largest Contentful Paint is critically slow",
         recommendation := "Optimize and prioritize loading of hero images and text. Consider using CDN and image optimization." }]
    else if v ≥ 2500 then
      [{ type := .warning, category := "Core Web Vitals",
         metric := "Largest Contentful Paint (LCP)",
         value := jsToFixed 2 (v / 1000) ++ "s", threshold := "2.5s",
         message := "Largest Contentful Paint is slow",
         recommendation := "Consider optimizing hero images and text loading." }]
    else []
  else []

/-- The CLS block (`!== undefined` guard; warning ≥ 0.1, critical ≥ 0.25). -/
def clsAlerts (d : LhDetails) : List Alert :=
  match d.clsRaw with
  | none => []
  | some v =>
      if v ≥ 0.25 then
        [{ type := .critical, category := "Core Web Vitals",
           metric := "Cumulative Layout Shift (CLS)",
           value := jsToFixed 3 v, threshold := jsToFixed 2 0.25,
           message := "Cumulative Layout Shift is critically high",
           recommendation := "Set explicit width/height for images, ads, embeds, and dynamically injected content." }]
      else if v ≥ 0.1 then
        [{ type := .warning, category := "Core Web Vitals",
           metric := "Cumulative Layout Shift (CLS)",
           value := jsToFixed 3 v, threshold := jsToFixed 2 0.1,
           message := "Cumulative Layout Shift is high",
           recommendation := "Consider setting explicit dimensions for images and dynamic content." }]
      else []

/-- The TTI block (warning ≥ 3800ms, critical ≥ 7300ms); checked before TBT
in the source. -/
def ttiAlerts (d : LhDetails) : List Alert :=
  if jsTruthy d.ttiRaw then
    let v := d.ttiRaw.getD 0
    if v ≥ 7300 then
      [{ type := .critical, category := "Performance",
         metric := "Time to Interactive (TTI)",
         value := jsToFixed 2 (v / 1000) ++ "s", threshold := "7.3s",
         message := "Time to Interactive is critically slow",
         recommendation := "Reduce JavaScript execution time, minimize main thread work, and defer non-critical JavaScript." }]
    else if v ≥ 3800 then
      [{ type := .warning, category := "Performance",
         metric := "Time to Interactive (TTI)",
         value := jsToFixed 2 (v / 1000) ++ "s", threshold := "3.8s",
         message := "Time to Interactive is slow",
         recommendation := "Consider reducing JavaScript execution time and deferring non-critical scripts." }]
    else []
  else []

/-- The TBT block (warning ≥ 300ms, critical ≥ 600ms). -/
def tbtAlerts (d : LhDetails) : List Alert :=
  if jsTruthy d.tbtRaw then
    let v := d.tbtRaw.getD 0
    if v ≥ 600 then
      [{ type := .critical, category := "Performance",
         metric := "Total Blocking Time (TBT)",
         value := jsToFixed 0 v ++ "ms", threshold := "600ms",
         message := "Total Blocking Time is critically high",
         recommendation := "Minimize long tasks, optimize JavaScript execution, and consider code-splitting." }]
    else if v ≥ 300 then
      [{ type := .warning, category := "Performance",
         metric := "Total Blocking Time (TBT)",
         value := jsToFixed 0 v ++ "ms", threshold := "300ms",
         message := "Total Blocking Time is high",
         recommendation := "Consider optimizing JavaScript execution and breaking up long tasks." }]
    else []
  else []

/-- The Speed Index block (warning ≥ 3400ms, critical ≥ 5800ms). -/
def siAlerts (d : LhDetails) : List Alert :=
  if jsTruthy d.siRaw then
    let v := d.siRaw.getD 0
    if v ≥ 5800 then
      [{ type := .critical, category := "Performance",
         metric := "Speed Index (SI)",
         value := jsToFixed 2 (v / 1000) ++ "s", threshold := "5.8s",
         message := "Speed Index is critically slow",
         recommendation := "Optimize page load performance, minimize critical rendering path, and prioritize visible content." }]
    else if v ≥ 3400 then
      [{ type := .warning, category := "Performance",
         metric := "Speed Index (SI)",
         value := jsToFixed 2 (v / 1000) ++ "s", threshold := "3.4s",
         message := "Speed Index is slow",
         recommendation := "Consider optimizing page load performance and prioritizing visible content." }]
    else []
  else []

/-- The overall performance-score block (`!== undefined` guard;
warning ≤ 0.7, critical ≤ 0.5). -/
def perfScoreAlerts (p : Option ℚ) : List Alert :=
  match p with
  | none => []
  | some v =>
      if v ≤ 0.5 then
        [{ type := .critical, category := "Overall", metric := "Performance Score",
           value := intStr (jsRound (v * 100)) ++ "/100", threshold := "50/100",
           message := "Overall performance score is critically low",
           recommendation := "Review all performance metrics and prioritize fixing critical issues first." }]
      else if v ≤ 0.7 then
        [{ type := .warning, category := "Overall", metric := "Performance Score",
           value := intStr (jsRound (v * 100)) ++ "/100", threshold := "70/100",
           message := "Overall performance score is low",
           recommendation := "Review performance metrics and address the most impactful issues." }]
      else []

/-- The accessibility-score block (`!== undefined` guard;
warning ≤ 0.7, critical ≤ 0.5). -/
def accessScoreAlerts (p : Option ℚ) : List Alert :=
  match p with
  | none => []
  | some v =>
      if v ≤ 0.5 then
        [{ type := .critical, category := "Accessibility", metric := "Accessibility Score",
           value := intStr (jsRound (v * 100)) ++ "/100", threshold := "50/100",
           message := "Accessibility score is critically low",
           recommendation := "Address critical accessibility issues like missing alt text, insufficient color contrast, and improper ARIA usage." }]
      else if v ≤ 0.7 then
        [{ type := .warning, category := "Accessibility", metric := "Accessibility Score",
           value := intStr (jsRound (v * 100)) ++ "/100", threshold := "70/100",
           message := "Accessibility score is low",
           recommendation := "Review accessibility issues and address the most impactful problems." }]
      else []

/-- The slow-API-calls block: critical when any call has
`timeTaken ≥ 1000ms`, else warning when any call is in `[500, 1000)`. -/
def slowApiAlerts (calls : List FormattedApiCall) : List Alert :=
  let slow := calls.filter fun c => decide (c.timeTaken ≥ 1000)
  if slow.length > 0 then
    [{ type := .critical, category := "API Performance", metric := "Slow API Calls",
       value := natStr slow.length ++ " calls", threshold := "1000ms",
       message := natStr slow.length ++ " API calls are critically slow",
       recommendation := "Optimize server response time, implement caching, and consider API endpoint consolidation.",
       details := slow.map fun c =>
         c.method ++ " " ++ c.endpoint ++ ": " ++ intStr c.timeTaken ++ "ms" }]
  else
    let warn := calls.filter fun c =>
      decide (c.timeTaken ≥ 500) && decide (c.timeTaken < 1000)
    if warn.length > 0 then
      [{ type := .warning, category := "API Performance", metric := "Slow API Calls",
         value := natStr warn.length ++ " calls", threshold := "500ms",
         message := natStr warn.length ++ " API calls are slow",
         recommendation := "Consider optimizing server response time and implementing caching.",
         details := warn.map fun c =>
           c.method ++ " " ++ c.endpoint ++ ": " ++ intStr c.timeTaken ++ "ms" }]
    else []

/-- The API-error-rate block: over the whole call set, critical when the
error rate is ≥ 0.1, else warning when ≥ 0.05. -/
def errorRateAlerts (calls : List FormattedApiCall) : List Alert :=
  let errs := calls.filter statusGe400
  if errs.length > 0 then
    let errorRate : ℚ := (errs.length : ℚ) / (calls.length : ℚ)
    if errorRate ≥ 0.1 then
      [{ type := .critical, category := "API Reliability", metric := "API Error Rate",
         value := jsToFixed 1 (errorRate * 100) ++ "%",
         threshold := jsToFixed 1 ((0.1:ℚ) * 100) ++ "%",
         message := "API error rate is critically high",
         recommendation := "Investigate and fix failing API endpoints. Consider implementing retry logic and error handling.",
         details := errs.map fun c =>
           c.method ++ " " ++ c.endpoint ++ ": " ++ statusStr c.status }]
    else if errorRate ≥ 0.05 then
      [{ type := .warning, category := "API Reliability", metric := "API Error Rate",
         value := jsToFixed 1 (errorRate * 100) ++ "%",
         threshold := jsToFixed 1 ((0.05:ℚ) * 100) ++ "%",
         message := "API error rate is high",
         recommendation := "Review failing API endpoints and implement proper error handling.",
         details := errs.map fun c =>
           c.method ++ " " ++ c.endpoint ++ ": " ++ statusStr c.status }]
    else []
  else []

/-- The payload-size block: critical when any call's raw transfer size is
≥ 5MB, else warning when any is in `[1MB, 5MB)`. -/
def payloadAlerts (calls : List FormattedApiCall) : List Alert :=
  let large := calls.filter fun c =>
    decide (jsOrElse c.rawTransferSize 0 ≥ 5 * 1024 * 1024)
  if large.length > 0 then
    [{ type := .critical, category := "API Efficiency", metric := "Large API Payloads",
       value := natStr large.length ++ " calls", threshold := "5MB",
       message := natStr large.length ++ " API calls have excessively large payloads",
       recommendation := "Implement pagination, reduce payload size, use compression, and consider GraphQL for selective data fetching.",
       details := large.map fun c => c.method ++ " " ++ c.endpoint ++ ": " ++ c.payloadSize }]
  else
    let warn := calls.filter fun c =>
      decide (jsOrElse c.rawTransferSize 0 ≥ 1024 * 1024) &&
      decide (jsOrElse c.rawTransferSize 0 < 5 * 1024 * 1024)
    if warn.length > 0 then
      [{ type := .warning, category := "API Efficiency", metric := "Large API Payloads",
         value := natStr warn.length ++ " calls", threshold := "1MB",
         message := natStr warn.length ++ " API calls have large payloads",
         recommendation := "Consider implementing pagination and reducing payload size.",
         details := warn.map fun c => c.method ++ " " ++ c.endpoint ++ ": " ++ c.payloadSize }]
    else []

/-- The Core-Web-Vitals / score half of the engine (under
`if (lighthouseResults)`). -/
def cwvAlerts (lh : LighthouseResults) : List Alert :=
  (match lh.details with
   | none => []
   | some d =>
      fcpAlerts d ++ lcpAlerts d ++ clsAlerts d ++ ttiAlerts d ++
        tbtAlerts d ++ siAlerts d) ++
  perfScoreAlerts lh.performance ++ accessScoreAlerts lh.accessibility

/-- The API half of the engine (under
`if (apiResults && apiResults.apiCalls && apiResults.apiCalls.length > 0)`). -/
def apiAlerts (api : ApiResults) : List Alert :=
  if api.apiCalls.length > 0 then
    slowApiAlerts api.apiCalls ++ errorRateAlerts api.apiCalls ++
      payloadAlerts api.apiCalls
  else []

/-- `generatePerformanceAlerts(lighthouseResults, apiResults)`. -/
def generatePerformanceAlerts (lh : Option LighthouseResults)
    (api : Option ApiResults) : List Alert :=
  (match lh with
   | none => []
   | some l => cwvAlerts l) ++
  (match api with
   | none => []
   | some a => apiAlerts a)

/-- The order in which `formatAlertsForDisplay` (and the dashboard's
`AlertsView`) emit the alerts: the critical group first, then the warning
group, each in generation order (`alerts.filter(type === critical)` then
`alerts.filter(type === warning)`). -/
def displayOrder (alerts : List Alert) : List Alert :=
  alerts.filter (fun a => a.type == .critical) ++
    alerts.filter (fun a => a.type == .warning)

/-- One numbered alert block of the display string. -/
def formatAlertBlock (idx : ℕ) (a : Alert) : String :=
  natStr (idx + 1) ++ ". " ++ a.message ++ "\n" ++
  "   Metric: " ++ a.metric ++ "\n" ++
  "   Value: " ++ a.value ++ " (Threshold: " ++ a.threshold ++ ")\n" ++
  "   Recommendation: " ++ a.recommendation ++ "\n" ++
  (if a.details.length > 0 then
    String.join ("   Details:\n" :: (a.details.take 3).map fun d => "     - " ++ d ++ "\n") ++
    (if a.details.length > 3 then
      "     - ... and " ++ natStr (a.details.length - 3) ++ " more\n"
     else "")
   else "") ++ "\n"

/-- One titled section of the display string (empty when the group is). -/
def alertsSection (title : String) (l : List Alert) : String :=
  if l.length > 0 then
    title ++ " (" ++ natStr l.length ++ ")\n" ++ "====================\n\n" ++
      String.join (l.enum.map fun p => formatAlertBlock p.1 p.2)
  else ""

/-- `formatAlertsForDisplay(alerts)`: critical section, warning section,
summary. -/
def formatAlertsForDisplay (alerts : List Alert) : String :=
  if alerts.length = 0 then
    "No performance alerts detected. Your website is performing well!"
  else
    let criticalAlerts := alerts.filter (fun a => a.type == .critical)
    let warningAlerts := alerts.filter (fun a => a.type == .warning)
    alertsSection "CRITICAL ALERTS" criticalAlerts ++
    alertsSection "WARNING ALERTS" warningAlerts ++
    "SUMMARY\n" ++ "====================\n\n" ++
    "Total Alerts: " ++ natStr alerts.length ++ "\n" ++
    "Critical Alerts: " ++ natStr criticalAlerts.length ++ "\n" ++
    "Warning Alerts: " ++ natStr warningAlerts.length ++ "\n"

/-- `blockOk name l`: the block emitted at most one alert, all of whose
alerts carry the metric string `name`. -/
def blockOk (name : String) (l : List Alert) : Prop :=
  l.length ≤ 1 ∧ ∀ a ∈ l, a.metric = name

theorem fcpAlerts_ok (d : LhDetails) :
    blockOk "First Contentful Paint (FCP)" (fcpAlerts d) := by
  simp only [blockOk, fcpAlerts]
  split_ifs <;> simp

theorem lcpAlerts_ok (d : LhDetails) :
    blockOk "Largest Contentful Paint (LCP)" (lcpAlerts d) := by
  simp only [blockOk, lcpAlerts]
  split_ifs <;> simp

theorem clsAlerts_ok (d : LhDetails) :
    blockOk "Cumulative Layout Shift (CLS)" (clsAlerts d) := by
  rcases h : d.clsRaw with - | v <;> simp only [blockOk, clsAlerts, h] <;>
    (try split_ifs) <;> simp

theorem ttiAlerts_ok (d : LhDetails) :
    blockOk "Time to Interactive (TTI)" (ttiAlerts d) := by
  simp only [blockOk, ttiAlerts]
  split_ifs <;> simp

theorem tbtAlerts_ok (d : LhDetails) :
    blockOk "Total Blocking Time (TBT)" (tbtAlerts d) := by
  simp only [blockOk, tbtAlerts]
  split_ifs <;> simp

theorem siAlerts_ok (d : LhDetails) :
    blockOk "Speed Index (SI)" (siAlerts d) := by
  simp only [blockOk, siAlerts]
  split_ifs <;> simp

theorem perfScoreAlerts_ok (p : Option ℚ) :
    blockOk "Performance Score" (perfScoreAlerts p) := by
  rcases p with - | v <;> simp only [blockOk, perfScoreAlerts] <;>
    (try split_ifs) <;> simp

theorem accessScoreAlerts_ok (p : Option ℚ) :
    blockOk "Accessibility Score" (accessScoreAlerts p) := by
  rcases p with - | v <;> simp only [blockOk, accessScoreAlerts] <;>
    (try split_ifs) <;> simp

theorem slowApiAlerts_ok (calls : List FormattedApiCall) :
    blockOk "Slow API Calls" (slowApiAlerts calls) := by
  simp only [blockOk, slowApiAlerts]
  split_ifs <;> simp

theorem errorRateAlerts_ok (calls : List FormattedApiCall) :
    blockOk "API Error Rate" (errorRateAlerts calls) := by
  simp only [blockOk, errorRateAlerts]
  split_ifs <;> simp

theorem payloadAlerts_ok (calls : List FormattedApiCall) :
    blockOk "Large API Payloads" (payloadAlerts calls) := by
  simp only [blockOk, payloadAlerts]
  split_ifs <;> simp

theorem map_metric_sublist {l : List Alert} {name : String}
    (h : blockOk name l) : l.map (fun a => a.metric) <+ [name] := by
  obtain ⟨hlen, hall⟩ := h
  match l with
  | [] => simp
  | [a] => simp [hall a (by simp)]
  | a :: b :: _ => simp at hlen

/-- The eleven metric names, one per threshold block, in source order. -/
theorem generateAlerts_metrics_sublist (lh : Option LighthouseResults)
    (api : Option ApiResults) :
    (generatePerformanceAlerts lh api).map (fun a => a.metric) <+
      ["First Contentful Paint (FCP)", "Largest Contentful Paint (LCP)",
       "Cumulative Layout Shift (CLS)", "Time to Interactive (TTI)",
       "Total Blocking Time (TBT)", "Speed Index (SI)", "Performance Score",
       "Accessibility Score", "Slow API Calls", "API Error Rate",
       "Large API Payloads"] := by
  rw [generatePerformanceAlerts.eq_def, List.map_append]
  have hL : (match lh with
      | none => ([] : List Alert)
      | some l => cwvAlerts l).map (fun (a : Alert) => a.metric) <+
      (["First Contentful Paint (FCP)", "Largest Contentful Paint (LCP)",
        "Cumulative Layout Shift (CLS)", "Time to Interactive (TTI)",
        "Total Blocking Time (TBT)", "Speed Index (SI)", "Performance Score",
        "Accessibility Score"] : List String) := by
    rcases lh with - | l
    · exact List.nil_sublist _
    · show (cwvAlerts l).map (fun a => a.metric) <+ _
      rw [cwvAlerts.eq_def, List.map_append, List.map_append]
      have hD : (match l.details with
          | none => ([] : List Alert)
          | some d =>
              fcpAlerts d ++ lcpAlerts d ++ clsAlerts d ++ ttiAlerts d ++
                tbtAlerts d ++ siAlerts d).map (fun (a : Alert) => a.metric) <+
          (["First Contentful Paint (FCP)", "Largest Contentful Paint (LCP)",
            "Cumulative Layout Shift (CLS)", "Time to Interactive (TTI)",
            "Total Blocking Time (TBT)", "Speed Index (SI)"] : List String) := by
        rcases l.details with - | d
        · exact List.nil_sublist _
        · simp only [List.map_append]
          exact ((((map_metric_sublist (fcpAlerts_ok d)).append
            (map_metric_sublist (lcpAlerts_ok d))).append
            (map_metric_sublist (clsAlerts_ok d))).append
            (map_metric_sublist (ttiAlerts_ok d))).append
            (map_metric_sublist (tbtAlerts_ok d)) |>.append
            (map_metric_sublist (siAlerts_ok d))
      exact (hD.append
        (map_metric_sublist (perfScoreAlerts_ok l.performance))).append
        (map_metric_sublist (accessScoreAlerts_ok l.accessibility))
  have hA : (match api with
      | none => ([] : List Alert)
      | some a => apiAlerts a).map (fun (a : Alert) => a.metric) <+
      (["Slow API Calls", "API Error Rate", "Large API Payloads"] :
        List String) := by
    rcases api with - | a
    · exact List.nil_sublist _
    · show (apiAlerts a).map (fun x => x.metric) <+ _
      rw [apiAlerts.eq_def]
      split
      · simp only [List.map_append]
        exact ((map_metric_sublist (slowApiAlerts_ok a.apiCalls)).append
          (map_metric_sublist (errorRateAlerts_ok a.apiCalls))).append
          (map_metric_sublist (payloadAlerts_ok a.apiCalls))
      · exact List.nil_sublist _
  exact hL.append hA

/-- A 200-status call used in the error-rate examples. -/
def okCall : FormattedApiCall :=
  { endpoint := "/api/ok", method := "GET", status := some 200, timeTaken := 10 }

/-- A 500-status call used in the error-rate examples. -/
def errCall : FormattedApiCall :=
  { endpoint := "/api/err", method := "GET", status := some 500, timeTaken := 10 }

/-- A 40-call set with `k` failing calls. -/
def apiWith (k : ℕ) : ApiResults :=
  ⟨List.replicate k errCall ++ List.replicate (40 - k) okCall⟩

/-- C6: for every input and every metric, at most one alert is emitted per
metric (critical evaluated first, warning only in the `else`, so never
both); a 3/40 (7.5%) error rate yields exactly one warning API Reliability
alert with threshold "5.0%", and a 5/40 (12.5%) error rate yields exactly
one critical alert with threshold "10.0%" and no warning alert for that
metric. -/
theorem generateAlerts_metric_exclusive :
    (∀ (lh : Option LighthouseResults) (api : Option ApiResults) (m : String),
      ((generatePerformanceAlerts lh api).map (fun a => a.metric)).count m ≤ 1) ∧
    generatePerformanceAlerts none (some (apiWith 3)) =
      [{ type := .warning, category := "API Reliability", metric := "API Error Rate",
         value := "7.5%", threshold := "5.0%",
         message := "API error rate is high",
         recommendation := "Review failing API endpoints and implement proper error handling.",
         details := ["GET /api/err: 500", "GET /api/err: 500", "GET /api/err: 500"] }] ∧
    generatePerformanceAlerts none (some (apiWith 5)) =
      [{ type := .critical, category := "API Reliability", metric := "API Error Rate",
         value := "12.5%", threshold := "10.0%",
         message := "API error rate is critically high",
         recommendation := "Investigate and fix failing API endpoints. Consider implementing retry logic and error handling.",
         details := ["GET /api/err: 500", "GET /api/err: 500", "GET /api/err: 500",
           "GET /api/err: 500", "GET /api/err: 500"] }] := by
  refine ⟨?_, by decide, by decide⟩
  intro lh api m
  have hnodup : (["First Contentful Paint (FCP)", "Largest Contentful Paint (LCP)",
      "Cumulative Layout Shift (CLS)", "Time to Interactive (TTI)",
      "Total Blocking Time (TBT)", "Speed Index (SI)", "Performance Score",
      "Accessibility Score", "Slow API Calls", "API Error Rate",
      "Large API Payloads"] : List String).Nodup := by decide
  exact List.nodup_iff_count_le_one.mp
    (List.Nodup.sublist (generateAlerts_metrics_sublist lh api) hnodup) m

/-- The Lighthouse input refuting C8 on the engine's own output list:
FCP in the warning band, LCP in the critical band. -/
def interleavedLh : LighthouseResults :=
  { details := some { fcpRaw := some 2500, lcpRaw := some 4000 } }

/-- C8, counterexample to the claim as stated: `generatePerformanceAlerts`
pushes alerts in block order, so a warning (FCP at 2500ms) precedes a
critical (LCP at 4000ms) in the returned list — the critical-before-warning
grouping exists only in the display layer. -/
theorem alertEngine_order_counterexample :
    (generatePerformanceAlerts (some interleavedLh) none).map (fun a => a.type) =
      [.warning, .critical] := by decide

theorem filter_type_length (alerts : List Alert) :
    (alerts.filter (fun a => a.type == AlertType.critical)).length +
      (alerts.filter (fun a => a.type == AlertType.warning)).length =
      alerts.length := by
  induction alerts with
  | nil => rfl
  | cons a l ih =>
      cases h : a.type <;> simp [List.filter_cons, h] <;> omega

/-- C8 (amended): the engine's own list is in generation order and may
interleave severities; the display order (`formatAlertsForDisplay` and the
dashboard grouping) lists the critical group first and then the warning
group: all alerts before the group boundary are critical, all after are
warning, each group equals the corresponding filter of the generated list
(a sublist of it, hence in generation order), and no alert is lost. -/
theorem displayOrder_groups (alerts : List Alert) :
    (∀ a ∈ (displayOrder alerts).take
        (alerts.filter (fun a => a.type == AlertType.critical)).length,
      a.type = .critical) ∧
    (∀ a ∈ (displayOrder alerts).drop
        (alerts.filter (fun a => a.type == AlertType.critical)).length,
      a.type = .warning) ∧
    (displayOrder alerts).take
        (alerts.filter (fun a => a.type == AlertType.critical)).length =
      alerts.filter (fun a => a.type == AlertType.critical) ∧
    (displayOrder alerts).drop
        (alerts.filter (fun a => a.type == AlertType.critical)).length =
      alerts.filter (fun a => a.type == AlertType.warning) ∧
    alerts.filter (fun a => a.type == AlertType.critical) <+ alerts ∧
    alerts.filter (fun a => a.type == AlertType.warning) <+ alerts ∧
    (displayOrder alerts).length = alerts.length := by
  have htake : (displayOrder alerts).take
      (alerts.filter (fun a => a.type == AlertType.critical)).length =
      alerts.filter (fun a => a.type == AlertType.critical) :=
    List.take_left _ _
  have hdrop : (displayOrder alerts).drop
      (alerts.filter (fun a => a.type == AlertType.critical)).length =
      alerts.filter (fun a => a.type == AlertType.warning) :=
    List.drop_left _ _
  refine ⟨?_, ?_, htake, hdrop, List.filter_sublist _, List.filter_sublist _, ?_⟩
  · intro a ha
    rw [htake] at ha
    simpa using (List.mem_filter.mp ha).2
  · intro a ha
    rw [hdrop] at ha
    simpa using (List.mem_filter.mp ha).2
  · rw [displayOrder, List.length_append, filter_type_length]

/-- A warning alert for the display-order witness. -/
def demoWarnAlert : Alert :=
  { type := .warning, category := "Core Web Vitals", metric := "m1",
    value := "", threshold := "", message := "", recommendation := "" }

/-- A critical alert for the display-order witness. -/
def demoCritAlert : Alert :=
  { type := .critical, category := "Performance", metric := "m2",
    value := "", threshold := "", message := "", recommendation := "" }

theorem displayOrder_groups_witness :
    demoCritAlert.type = .critical ∧ demoWarnAlert.type = .warning :=
  ⟨(displayOrder_groups [demoWarnAlert, demoCritAlert]).1 demoCritAlert (by decide),
   (displayOrder_groups [demoWarnAlert, demoCritAlert]).2.1 demoWarnAlert (by decide)⟩

end ResponsiveTracer
